import Mathlib

/-!
Verification of the metrics visualization and alerting controller of the
`network-monitor` repository: a shallow embedding in Lean 4 of the
client-side chart/alert logic (`src/static/js/app.js` and the chart
configuration file), together with theorems settling the specified
properties.

Conventions of the embedding:
  * JavaScript numbers that carry telemetry values are modelled as `ℚ`
    (chart values) or `Int` (integer scores).
  * DOM/chart mutation is modelled by explicit state passing: each
    stateful function takes the prior state and returns the new one.
  * A `fetch` that rejects (transport failure, malformed JSON) is
    modelled as `Except.error`; a resolved response as `Except.ok`.
  * Side effects other than state updates (console logging, audio
    playback, HTTP requests) are modelled as emitted effect values.
-/

/-! ## QualityWatcher (`app.js`, `checkForAlerts`, line 61-70)

`let lastQualityScore = 100;` is the stored previous score; the function
body is

    if (lastQualityScore >= 50 && score < 50) {
        // playAlertSound(); // Uncomment to enable
        console.warn('Connection quality dropped to:', score);
    }
    lastQualityScore = score;

The observable effects are modelled explicitly.  Note that the
`playAlertSound()` call is commented out in the source, so the only
effect emitted on a crossing is the console warning. -/

/-- An observable effect of `checkForAlerts`. -/
inductive AlertEffect where
  | consoleWarn (score : Int)
  | playSound
deriving DecidableEq

/-- `checkForAlerts(score)`: given the stored `lastQualityScore` and the
newly observed `score`, returns the new stored score and the list of
effects executed. -/
def checkForAlerts (lastQualityScore : Int) (score : Int) :
    Int × List AlertEffect :=
  if lastQualityScore ≥ 50 ∧ score < 50 then
    (score, [AlertEffect.consoleWarn score])
  else
    (score, [])

/-- Whether the alert body fired on this observation. -/
def alertFired (lastQualityScore : Int) (score : Int) : Bool :=
  !(checkForAlerts lastQualityScore score).2.isEmpty

/-- Run the watcher over a sequence of observed scores from a given
stored score, collecting for each observation whether an alert fired. -/
def watcherFires (lastQualityScore : Int) : List Int → List Bool
  | [] => []
  | s :: rest =>
      let r := checkForAlerts lastQualityScore s
      alertFired lastQualityScore s :: watcherFires r.1 rest

/-! ## AlertTone (`app.js`, `playAlertSound`, line 39-58)

The audio environment: each Web-Audio operation may throw (e.g. no audio
device).  `playAlertSound` performs, in order: lazy creation of the
module-level `audioContext` (only when it is still `null`), creation of
an oscillator and a gain node, and the connect/start/stop calls on them.
The source contains no `try`/`catch`, so the embedding sequences the
fallible operations with `Except` bind and no recovery. -/

structure AudioContextHandle where
  id : Nat
deriving DecidableEq

/-- The fallible Web-Audio operations used by `playAlertSound`. -/
structure AudioEnv where
  createContext : Except String AudioContextHandle
  createOscillator : AudioContextHandle → Except String Unit
  createGain : AudioContextHandle → Except String Unit
  startStop : AudioContextHandle → Except String Unit

/-- `playAlertSound()`: takes the module-level `audioContext` variable
(`none` when still `null`) and returns its new value, or the uncaught
exception.  There is no `try`/`catch` in the source function. -/
def playAlertSound (env : AudioEnv) (audioContext : Option AudioContextHandle) :
    Except String (Option AudioContextHandle) := do
  let ctx ← match audioContext with
    | none => env.createContext
    | some c => pure c
  let _ ← env.createOscillator ctx
  let _ ← env.createGain ctx
  let _ ← env.startStop ctx
  pure (some ctx)

/-- An audio environment in which context creation fails (no audio
device) and everything else succeeds. -/
def noDeviceEnv : AudioEnv :=
  { createContext := Except.error "no audio device"
    createOscillator := fun _ => Except.ok ()
    createGain := fun _ => Except.ok ()
    startStop := fun _ => Except.ok () }

/-- An audio environment in which oscillator creation fails and
everything else succeeds. -/
def oscFailEnv : AudioEnv :=
  { createContext := Except.ok { id := 0 }
    createOscillator := fun _ => Except.error "oscillator unavailable"
    createGain := fun _ => Except.ok ()
    startStop := fun _ => Except.ok () }

/-- An audio environment in which gain-node creation fails and
everything else succeeds. -/
def gainFailEnv : AudioEnv :=
  { createContext := Except.ok { id := 0 }
    createOscillator := fun _ => Except.ok ()
    createGain := fun _ => Except.error "gain unavailable"
    startStop := fun _ => Except.ok () }

/-- An audio environment in which starting/stopping the oscillator fails
and everything else succeeds. -/
def startFailEnv : AudioEnv :=
  { createContext := Except.ok { id := 0 }
    createOscillator := fun _ => Except.ok ()
    createGain := fun _ => Except.ok ()
    startStop := fun _ => Except.error "start failed" }

/-! ## Quality-score scraping (`app.js`, `htmx:afterSwap` listener, line 73-80)

    const score = parseInt(qualityScore.textContent) || 100;
    checkForAlerts(score);

`parseInt` with no radix: skip leading whitespace, accept an optional
sign, then the longest prefix of decimal digits; `NaN` when there is no
digit.  (The automatic hexadecimal `0x` form of `parseInt` is irrelevant
here: for a text whose digit prefix is `0x...`, the decimal model and the
claims below agree on the digit `0` prefix only through `jsParseInt`,
and no claim concerns such texts.)  `x || 100` replaces the falsy
values of `x` — `NaN` and `0` — by `100`. -/

def isJsWhitespace (c : Char) : Bool :=
  c = ' ' || c = '\t' || c = '\n' || c = '\r' || c = '\x0b' || c = '\x0c'

def digitsToNat (ds : List Char) : Nat :=
  ds.foldl (fun acc c => acc * 10 + (c.toNat - ('0').toNat)) 0

/-- JavaScript `parseInt(s)` restricted to decimal inputs: `none` models
`NaN`. -/
def jsParseInt (s : String) : Option Int :=
  let cs := s.data.dropWhile isJsWhitespace
  let signAndRest : Int × List Char :=
    match cs with
    | '-' :: r => (-1, r)
    | '+' :: r => (1, r)
    | _ => (1, cs)
  let ds := signAndRest.2.takeWhile Char.isDigit
  if ds.isEmpty then none
  else some (signAndRest.1 * (digitsToNat ds : Int))

/-- The score the `htmx:afterSwap` listener passes to `checkForAlerts`,
computed from the text content of the `.quality-score` element:
`parseInt(text) || 100`. -/
def afterSwapScore (text : String) : Int :=
  match jsParseInt text with
  | none => 100
  | some v => if v = 0 then 100 else v

/-! ## Short-term charts (`updateCharts`, chart file line 168-188)

The two short-term charts hold a label axis and dataset arrays; a chart
variable may be unset (`none`) when its display region is absent from
the page.  `updateCharts` fetches `/api/history?seconds=60`; the whole
body is inside `try`/`catch`, and a rejected fetch or malformed JSON is
the `Except.error` case (the `catch` only logs).  Each chart is updated
only when the chart exists and `data.timestamps.length > 0`, and then
its labels and every dataset array are replaced by the response's
arrays. -/

/-- `/api/history` response body. -/
structure HistoryData where
  timestamps : List String
  ping : List ℚ
  jitter : List ℚ
  packet_loss : List ℚ
deriving DecidableEq

/-- A two-dataset line chart's mutable data (labels, dataset 0, dataset 1). -/
structure Chart2Data where
  labels : List String
  data0 : List ℚ
  data1 : List ℚ
deriving DecidableEq

/-- A one-dataset chart's mutable data (labels, dataset 0). -/
structure Chart1Data where
  labels : List String
  data0 : List ℚ
deriving DecidableEq

/-- The short-term chart state: `latencyChart` (ping + jitter) and
`lossChart` (packet loss). -/
structure ShortCharts where
  latencyChart : Option Chart2Data
  lossChart : Option Chart1Data
deriving DecidableEq

/-- `updateCharts()`: apply one short-term poll result to the chart
state.  `Except.error` models a rejected fetch / malformed payload
(caught, logged, state untouched). -/
def updateCharts (st : ShortCharts) (resp : Except Unit HistoryData) :
    ShortCharts :=
  match resp with
  | Except.error _ => st
  | Except.ok data =>
    let st1 :=
      if st.latencyChart.isSome ∧ data.timestamps.length > 0 then
        { st with
          latencyChart := some { labels := data.timestamps
                                 data0 := data.ping
                                 data1 := data.jitter } }
      else st
    if st1.lossChart.isSome ∧ data.timestamps.length > 0 then
      { st1 with
        lossChart := some { labels := data.timestamps
                            data0 := data.packet_loss } }
    else st1

/-! ## Long-term charts (`updateHistoryCharts`, chart file line 381-417)

`updateHistoryCharts(period)` first updates the module-level
`currentPeriod` when a period argument is given, then fetches
`/api/long-term-history?period=currentPeriod` and updates the four
long-term charts, each guarded by chart existence and
`data.timestamps.length > 0` exactly as in `updateCharts`. -/

/-- `/api/long-term-history` response body. -/
structure LongHistoryData where
  timestamps : List String
  ping : List ℚ
  jitter : List ℚ
  quality : List ℚ
  packet_loss : List ℚ
  signal : List ℚ
deriving DecidableEq

/-- The long-term chart state. -/
structure LongCharts where
  historyPingChart : Option Chart2Data
  historyQualityChart : Option Chart1Data
  historyLossChart : Option Chart1Data
  historySignalChart : Option Chart1Data
deriving DecidableEq

/-- `updateHistoryCharts(period)`: returns the new `currentPeriod` and
the new chart state, given the response of the fetch for that period. -/
def updateHistoryCharts (period : Option String) (currentPeriod : String)
    (st : LongCharts) (resp : Except Unit LongHistoryData) :
    String × LongCharts :=
  let cur := match period with
    | some p => p
    | none => currentPeriod
  match resp with
  | Except.error _ => (cur, st)
  | Except.ok data =>
    let st1 :=
      if st.historyPingChart.isSome ∧ data.timestamps.length > 0 then
        { st with
          historyPingChart := some { labels := data.timestamps
                                     data0 := data.ping
                                     data1 := data.jitter } }
      else st
    let st2 :=
      if st1.historyQualityChart.isSome ∧ data.timestamps.length > 0 then
        { st1 with
          historyQualityChart := some { labels := data.timestamps
                                        data0 := data.quality } }
      else st1
    let st3 :=
      if st2.historyLossChart.isSome ∧ data.timestamps.length > 0 then
        { st2 with
          historyLossChart := some { labels := data.timestamps
                                     data0 := data.packet_loss } }
      else st2
    if st3.historySignalChart.isSome ∧ data.timestamps.length > 0 then
      (cur, { st3 with
              historySignalChart := some { labels := data.timestamps
                                           data0 := data.signal } })
    else (cur, st3)

/-! ## Packet-loss bar coloring (chart file line 129-136 and 323-331)

Both the short-term loss chart (`initCharts`) and the long-term loss
chart (`initHistoryCharts`) configure

    backgroundColor: function(context) {
        const value = context.raw || 0;
        if (value > 5) return 'rgba(239, 68, 68, 0.8)';
        if (value > 1) return 'rgba(245, 158, 11, 0.8)';
        if (value > 0) return 'rgba(245, 158, 11, 0.5)';
        return 'rgba(16, 185, 129, 0.3)';
    }

`context.raw || 0` coalesces a missing bar value to `0`; for a numeric
value the coalescing is the identity (JavaScript's falsy number `0` is
replaced by `0` itself), so the color function is modelled directly on
the value. -/

/-- Bar color of `initCharts`' packet-loss chart. -/
def lossBarColor (value : ℚ) : String :=
  if value > 5 then "rgba(239, 68, 68, 0.8)"
  else if value > 1 then "rgba(245, 158, 11, 0.8)"
  else if value > 0 then "rgba(245, 158, 11, 0.5)"
  else "rgba(16, 185, 129, 0.3)"

/-- Bar color of `initHistoryCharts`' packet-loss chart (textually the
same function in the source). -/
def historyLossBarColor (value : ℚ) : String :=
  if value > 5 then "rgba(239, 68, 68, 0.8)"
  else if value > 1 then "rgba(245, 158, 11, 0.8)"
  else if value > 0 then "rgba(245, 158, 11, 0.5)"
  else "rgba(16, 185, 129, 0.3)"

/-! ## Long-term score panel (`updateLongtermScore`, chart file line 419-463)

The grade element's class list is reset to `score-grade` and then one
semantic class is added:

    if (data.grade.startsWith('A')) gradeEl.classList.add('grade-a');
    else if (data.grade.startsWith('B')) gradeEl.classList.add('grade-b');
    else if (data.grade.startsWith('C')) gradeEl.classList.add('grade-c');
    else if (data.grade === 'D') gradeEl.classList.add('grade-d');
    else gradeEl.classList.add('grade-e');

Note the `D` case tests strict equality, not a prefix. -/

/-- JavaScript `s.startsWith(p)`. -/
def jsStartsWith (s p : String) : Bool :=
  p.data.isPrefixOf s.data

/-- The semantic CSS class `updateLongtermScore` adds to the grade
element for a given grade string. -/
def gradeClass (grade : String) : String :=
  if jsStartsWith grade "A" then "grade-a"
  else if jsStartsWith grade "B" then "grade-b"
  else if jsStartsWith grade "C" then "grade-c"
  else if grade = "D" then "grade-d"
  else "grade-e"

/-! ## Detail bars (`updateDetailBar`, chart file line 465-478)

    bar.style.width = `${score}%`;
    value.textContent = score;
    bar.className = 'detail-fill';
    if (score >= 80) bar.classList.add('score-high');
    else if (score >= 50) bar.classList.add('score-mid');
    else bar.classList.add('score-low');

and the call sites in `updateLongtermScore` (line 443-448):

    updateDetailBar('lt-loss', data.details.packet_loss?.score || 0);
    updateDetailBar('lt-ping', data.details.ping?.score || 0);
    updateDetailBar('lt-conn', data.details.connection?.score || 0);
    updateDetailBar('lt-jitter', data.details.jitter?.score || 0);

`x?.score || 0` yields `0` both when the sub-score object is missing and
when the score is `0` (falsy); for integer scores this is `Option.getD 0`. -/

/-- The rendered state of one detail bar: the percentage in the width
style string, the numeric label text, and the added color class. -/
structure DetailBarRender where
  widthPct : Int
  label : Int
  cssClass : String
deriving DecidableEq

/-- `updateDetailBar(prefix, score)` (the DOM-existence guard aside; the
rendering is a pure function of the score). -/
def updateDetailBar (score : Int) : DetailBarRender :=
  { widthPct := score
    label := score
    cssClass :=
      if score ≥ 80 then "score-high"
      else if score ≥ 50 then "score-mid"
      else "score-low" }

/-- The `details` object of the `/api/longterm-score` response: each
named sub-score may be absent. -/
structure ScoreDetails where
  packet_loss : Option Int
  ping : Option Int
  connection : Option Int
  jitter : Option Int
deriving DecidableEq

/-- The four detail-bar render calls `updateLongtermScore` makes (target
id prefix paired with the rendered bar); a missing sub-score is coalesced
to `0` by `?.score || 0`. -/
def renderDetailBars (details : ScoreDetails) : List (String × DetailBarRender) :=
  [("lt-loss", updateDetailBar (details.packet_loss.getD 0)),
   ("lt-ping", updateDetailBar (details.ping.getD 0)),
   ("lt-conn", updateDetailBar (details.connection.getD 0)),
   ("lt-jitter", updateDetailBar (details.jitter.getD 0))]

/-! ## Period selector (`initPeriodSelector`, chart file line 480-494)

    btn.addEventListener('click', function() {
        buttons.forEach(b => b.classList.remove('active'));
        this.classList.add('active');
        const period = this.dataset.period;
        updateHistoryCharts(period);
        updateLongtermScore(period);
    });

`updateHistoryCharts(period)` sets `currentPeriod = period` and fetches
`/api/long-term-history?period=${currentPeriod}`; `updateLongtermScore(period)`
sets `currentPeriod = period` and fetches
`/api/longterm-score?period=${currentPeriod}`. -/

/-- An HTTP request issued by the long-term refresh functions. -/
inductive ApiRequest where
  | longTermHistory (period : String)
  | longtermScore (period : String)
deriving DecidableEq

/-- A period control: its `data-period` value and whether its class list
holds `active`. -/
structure PeriodBtn where
  period : String
  active : Bool
deriving DecidableEq

/-- The `currentPeriod` update and the request issued by
`updateHistoryCharts(period)`. -/
def updateHistoryChartsReq (period : Option String) (currentPeriod : String) :
    String × ApiRequest :=
  let cur := match period with
    | some p => p
    | none => currentPeriod
  (cur, ApiRequest.longTermHistory cur)

/-- The `currentPeriod` update and the request issued by
`updateLongtermScore(period)`. -/
def updateLongtermScoreReq (period : Option String) (currentPeriod : String) :
    String × ApiRequest :=
  let cur := match period with
    | some p => p
    | none => currentPeriod
  (cur, ApiRequest.longtermScore cur)

/-- The click handler `initPeriodSelector` attaches to button `i`:
clears `active` on every button, sets it on the clicked one, and calls
`updateHistoryCharts` and `updateLongtermScore` with the clicked
button's period.  Returns the new `currentPeriod`, the new button
states, and the requests issued.  (The handler exists only for an
existing button; the `none` branch is unreachable in the page.) -/
def periodClick (currentPeriod : String) (buttons : List PeriodBtn)
    (i : Nat) : String × List PeriodBtn × List ApiRequest :=
  match buttons.get? i with
  | none => (currentPeriod, buttons, [])
  | some btn =>
    let cleared := buttons.map (fun b => { b with active := false })
    let activated := cleared.set i { btn with active := true }
    let r1 := updateHistoryChartsReq (some btn.period) currentPeriod
    let r2 := updateLongtermScoreReq (some btn.period) r1.1
    (r2.1, activated, [r1.2, r2.2])

/-! ## Theorems -/

/-- Claim C1: `checkForAlerts` fires an alert exactly when the stored
previous score is at least 50 and the newly observed score is below 50
(initial stored score 100), after every call the stored previous score
equals the observed score, and on the observation sequence
100, 70, 40, 30, 60, 45 alerts fire exactly twice, at 40 and at 45. -/
theorem checkForAlerts_crossing_iff :
    (∀ prev score : Int,
        (alertFired prev score = true ↔ prev ≥ 50 ∧ score < 50) ∧
        (checkForAlerts prev score).1 = score) ∧
    watcherFires 100 [100, 70, 40, 30, 60, 45] =
      [false, false, true, false, false, true] := by
  refine ⟨fun prev score => ⟨?_, ?_⟩, by decide⟩
  · unfold alertFired checkForAlerts
    by_cases h : prev ≥ 50 ∧ score < 50 <;> simp [h]
  · unfold checkForAlerts
    by_cases h : prev ≥ 50 ∧ score < 50 <;> simp [h]

/-- Claim C10, counterexample: at the downward crossing from stored
score 100 to observed score 40, the effects of `checkForAlerts` do not
include the audible tone — the `playAlertSound()` call is commented out
in the source, so AlertTone is not triggered. -/
theorem checkForAlerts_no_tone_counterexample :
    (100 : Int) ≥ 50 ∧ (40 : Int) < 50 ∧
    AlertEffect.playSound ∉ (checkForAlerts 100 40).2 := by decide

/-- Claim C10, amended: whenever `checkForAlerts` detects a downward
crossing of 50, it logs a console warning with the observed score; the
audible alert tone is not invoked (its call is commented out). -/
theorem checkForAlerts_crossing_warns_only :
    ∀ prev score : Int, prev ≥ 50 → score < 50 →
      (checkForAlerts prev score).2 = [AlertEffect.consoleWarn score] ∧
      AlertEffect.playSound ∉ (checkForAlerts prev score).2 := by
  intro prev score h1 h2
  unfold checkForAlerts
  simp [h1, h2]

/-- Witness for `checkForAlerts_crossing_warns_only` at the crossing
from 100 to 40. -/
theorem checkForAlerts_crossing_warns_only_witness :
    (checkForAlerts 100 40).2 = [AlertEffect.consoleWarn 40] ∧
    AlertEffect.playSound ∉ (checkForAlerts 100 40).2 :=
  checkForAlerts_crossing_warns_only 100 40 (by decide) (by decide)

/-- Claim C9, counterexample: in an environment where audio-context
creation fails (no audio device), `playAlertSound` does not catch the
failure — it returns the error to its caller (there is no `try`/`catch`
in the function). -/
theorem playAlertSound_uncaught_counterexample :
    playAlertSound noDeviceEnv none = Except.error "no audio device" := rfl

/-- Claim C9, amended: `playAlertSound` has no exception handling; a
failure at any stage — audio-context creation, oscillator creation,
gain-node creation, or starting/stopping the oscillator — propagates
the exception to the caller unchanged.  `ctx` is the audio context the
call runs with: the already-stored one, or the one a successful lazy
creation yields. -/
theorem playAlertSound_error_propagates :
    ∀ (env : AudioEnv) (st : Option AudioContextHandle)
      (ctx : AudioContextHandle) (e : String),
      (st = none → env.createContext = Except.error e →
        playAlertSound env st = Except.error e) ∧
      (st = some ctx ∨ st = none ∧ env.createContext = Except.ok ctx →
        (env.createOscillator ctx = Except.error e →
          playAlertSound env st = Except.error e) ∧
        (env.createOscillator ctx = Except.ok () →
         env.createGain ctx = Except.error e →
          playAlertSound env st = Except.error e) ∧
        (env.createOscillator ctx = Except.ok () →
         env.createGain ctx = Except.ok () →
         env.startStop ctx = Except.error e →
          playAlertSound env st = Except.error e)) := by
  intro env st ctx e
  constructor
  · intro hst hc
    subst hst
    unfold playAlertSound
    rw [hc]
    rfl
  · intro hctx
    have hred : playAlertSound env st =
        env.createOscillator ctx >>= fun _ =>
          env.createGain ctx >>= fun _ =>
            env.startStop ctx >>= fun _ => pure (some ctx) := by
      rcases hctx with h | ⟨h1, h2⟩
      · subst h
        rfl
      · subst h1
        unfold playAlertSound
        rw [h2]
        rfl
    refine ⟨?_, ?_, ?_⟩
    · intro h1
      rw [hred, h1]
      rfl
    · intro h1 h2
      rw [hred, h1, h2]
      rfl
    · intro h1 h2 h3
      rw [hred, h1, h2, h3]
      rfl

/-- Witness for `playAlertSound_error_propagates`: concrete failures at
the oscillator, gain and start stages each reach the caller, from both
the lazily-creating state and an already-created context. -/
theorem playAlertSound_error_propagates_witness :
    playAlertSound oscFailEnv none = Except.error "oscillator unavailable" ∧
    playAlertSound gainFailEnv (some { id := 7 }) =
      Except.error "gain unavailable" ∧
    playAlertSound startFailEnv none = Except.error "start failed" :=
  ⟨((playAlertSound_error_propagates oscFailEnv none { id := 0 }
        "oscillator unavailable").2 (Or.inr ⟨rfl, rfl⟩)).1 rfl,
   ((playAlertSound_error_propagates gainFailEnv (some { id := 7 })
        { id := 7 } "gain unavailable").2 (Or.inl rfl)).2.1 rfl rfl,
   ((playAlertSound_error_propagates startFailEnv none { id := 0 }
        "start failed").2 (Or.inr ⟨rfl, rfl⟩)).2.2 rfl rfl rfl⟩

/-- Claim C4, counterexample: the text `"0"` parses to the integer 0
(which lies in 0-100), yet the score passed on is 100, because `0` is
falsy in `parseInt(text) || 100`. -/
theorem afterSwapScore_zero_counterexample :
    jsParseInt "0" = some 0 ∧ afterSwapScore "0" = 100 ∧
    (100 : Int) ≠ 0 := by decide

/-- Claim C4, amended: the score passed to `checkForAlerts` by the
`htmx:afterSwap` handler equals the text parsed as an integer when the
parse succeeds with a nonzero value (in particular for integers 1-100),
and equals 100 when the text is not parseable or parses to 0. -/
theorem afterSwapScore_spec :
    ∀ (text : String) (v : Int),
      (jsParseInt text = some v → v ≠ 0 → afterSwapScore text = v) ∧
      (jsParseInt text = none → afterSwapScore text = 100) ∧
      afterSwapScore "0" = 100 := by
  intro text v
  refine ⟨?_, ?_, by decide⟩
  · intro h hv
    unfold afterSwapScore
    rw [h]
    simp [hv]
  · intro h
    unfold afterSwapScore
    rw [h]

/-- Witness for `afterSwapScore_spec` at the text `"42"`. -/
theorem afterSwapScore_spec_witness :
    afterSwapScore "42" = 42 :=
  (afterSwapScore_spec "42" 42).1 (by decide) (by decide)

/-- A one-character `startsWith` test holds exactly when the string's
first character is that character. -/
lemma jsStartsWith_single {g p : String} {c : Char} (hp : p.data = [c]) :
    jsStartsWith g p = true ↔ g.data.head? = some c := by
  unfold jsStartsWith
  rw [hp]
  cases g.data with
  | nil => simp
  | cons a t =>
      simp only [List.isPrefixOf_cons₂, List.isPrefixOf_nil_left,
        Bool.and_true, beq_iff_eq, List.head?_cons, Option.some.injEq]
      exact eq_comm

/-- Claim C5, counterexample: the grade string `"D+"` starts with `'D'`,
yet `updateLongtermScore` assigns it the class `grade-e`, not `grade-d`
— the `D` branch tests strict equality (`data.grade === 'D'`), not a
prefix. -/
theorem gradeClass_D_prefix_counterexample :
    jsStartsWith "D+" "D" = true ∧ gradeClass "D+" = "grade-e" ∧
    "grade-e" ≠ "grade-d" := by decide

/-- Claim C5, amended: the semantic class is derived from the grade
string as follows — any string starting with `'A'` maps to `grade-a`,
starting with `'B'` to `grade-b`, starting with `'C'` to `grade-c`, the
exact string `"D"` to `grade-d`, and any other string (including strings
that merely start with `'D'`, such as `"D+"`) to `grade-e`; in
particular `"B+"` maps to `grade-b` and `"E"` to `grade-e`. -/
theorem gradeClass_spec :
    ∀ g : String,
      (jsStartsWith g "A" = true → gradeClass g = "grade-a") ∧
      (jsStartsWith g "B" = true → gradeClass g = "grade-b") ∧
      (jsStartsWith g "C" = true → gradeClass g = "grade-c") ∧
      (g = "D" → gradeClass g = "grade-d") ∧
      (jsStartsWith g "A" = false → jsStartsWith g "B" = false →
        jsStartsWith g "C" = false → g ≠ "D" → gradeClass g = "grade-e") ∧
      gradeClass "B+" = "grade-b" ∧ gradeClass "E" = "grade-e" ∧
      gradeClass "D+" = "grade-e" := by
  intro g
  have hA := jsStartsWith_single (g := g) (p := "A") (c := 'A') rfl
  have hB := jsStartsWith_single (g := g) (p := "B") (c := 'B') rfl
  have hC := jsStartsWith_single (g := g) (p := "C") (c := 'C') rfl
  refine ⟨?_, ?_, ?_, ?_, ?_, by decide, by decide, by decide⟩
  · intro h
    simp [gradeClass, h]
  · intro h
    have hA' : jsStartsWith g "A" = false := by
      rw [Bool.eq_false_iff]
      intro hcontra
      rw [hA] at hcontra
      rw [hB] at h
      rw [h] at hcontra
      exact absurd (Option.some.inj hcontra) (by decide)
    simp [gradeClass, h, hA']
  · intro h
    have hA' : jsStartsWith g "A" = false := by
      rw [Bool.eq_false_iff]
      intro hcontra
      rw [hA] at hcontra
      rw [hC] at h
      rw [h] at hcontra
      exact absurd (Option.some.inj hcontra) (by decide)
    have hB' : jsStartsWith g "B" = false := by
      rw [Bool.eq_false_iff]
      intro hcontra
      rw [hB] at hcontra
      rw [hC] at h
      rw [h] at hcontra
      exact absurd (Option.some.inj hcontra) (by decide)
    simp [gradeClass, h, hA', hB']
  · intro h
    subst h
    decide
  · intro h1 h2 h3 h4
    unfold gradeClass
    rw [h1, h2, h3]
    simp [h4]

/-- Witness for `gradeClass_spec` at the grade string `"A-"`. -/
theorem gradeClass_spec_witness :
    gradeClass "A-" = "grade-a" :=
  (gradeClass_spec "A-").1 (by decide)

/-- Claim C6: for every packet-loss value v (percentages are
nonnegative), the bar color function used by the short-term loss chart
returns the high-severity color iff v > 5, the medium color iff
1 < v ≤ 5, the low color iff 0 < v ≤ 1, and the nominal color iff
v = 0; and the long-term loss chart's color function is identical. -/
theorem lossBarColor_spec :
    ∀ v : ℚ, 0 ≤ v →
      ((lossBarColor v = "rgba(239, 68, 68, 0.8)" ↔ v > 5) ∧
       (lossBarColor v = "rgba(245, 158, 11, 0.8)" ↔ 1 < v ∧ v ≤ 5) ∧
       (lossBarColor v = "rgba(245, 158, 11, 0.5)" ↔ 0 < v ∧ v ≤ 1) ∧
       (lossBarColor v = "rgba(16, 185, 129, 0.3)" ↔ v = 0)) ∧
      historyLossBarColor v = lossBarColor v := by
  intro v hv
  refine ⟨?_, rfl⟩
  by_cases h5 : v > 5
  · have e : lossBarColor v = "rgba(239, 68, 68, 0.8)" := by
      simp [lossBarColor, h5]
    rw [e]
    refine ⟨?_, ?_, ?_, ?_⟩ <;> simp <;> intros <;>
        first
        | linarith
        | exact ⟨by linarith, by linarith⟩
  · by_cases h1 : v > 1
    · have e : lossBarColor v = "rgba(245, 158, 11, 0.8)" := by
        simp [lossBarColor, h5, h1]
      rw [e]
      refine ⟨?_, ?_, ?_, ?_⟩ <;> simp <;> intros <;>
        first
        | linarith
        | exact ⟨by linarith, by linarith⟩
    · by_cases h0 : v > 0
      · have e : lossBarColor v = "rgba(245, 158, 11, 0.5)" := by
          simp [lossBarColor, h5, h1, h0]
        rw [e]
        refine ⟨?_, ?_, ?_, ?_⟩ <;> simp <;> intros <;>
        first
        | linarith
        | exact ⟨by linarith, by linarith⟩
      · have e : lossBarColor v = "rgba(16, 185, 129, 0.3)" := by
          simp [lossBarColor, h5, h1, h0]
        rw [e]
        refine ⟨?_, ?_, ?_, ?_⟩ <;> simp <;> intros <;>
        first
        | linarith
        | exact ⟨by linarith, by linarith⟩

/-- Witness for `lossBarColor_spec` at v = 3 (medium color). -/
theorem lossBarColor_spec_witness :
    lossBarColor 3 = "rgba(245, 158, 11, 0.8)" :=
  ((lossBarColor_spec 3 (by decide)).1.2.1).mpr (by decide)

/-- Characterization of a successful `updateCharts` call: when the
response's timestamps are nonempty, each existing chart's labels and
dataset arrays are replaced wholesale by the response's arrays;
otherwise nothing changes. -/
lemma updateCharts_ok_eq (st : ShortCharts) (d : HistoryData) :
    updateCharts st (Except.ok d) =
      if d.timestamps.length > 0 then
        { latencyChart := st.latencyChart.map fun _ =>
            { labels := d.timestamps, data0 := d.ping, data1 := d.jitter }
          lossChart := st.lossChart.map fun _ =>
            { labels := d.timestamps, data0 := d.packet_loss } }
      else st := by
  cases st with
  | mk lat lo =>
    cases lat <;> cases lo <;>
      by_cases h : d.timestamps.length > 0 <;>
        simp [updateCharts, h]

/-- Characterization of `updateHistoryCharts`: the returned
`currentPeriod` is the argument when supplied, the previous one
otherwise; on a successful response with nonempty timestamps each
existing long-term chart is replaced wholesale by the response's
arrays, otherwise the charts are unchanged. -/
lemma updateHistoryCharts_ok_eq (period : Option String)
    (cur : String) (st : LongCharts) (d : LongHistoryData) :
    updateHistoryCharts period cur st (Except.ok d) =
      (period.getD cur,
       if d.timestamps.length > 0 then
         { historyPingChart := st.historyPingChart.map fun _ =>
             { labels := d.timestamps, data0 := d.ping, data1 := d.jitter }
           historyQualityChart := st.historyQualityChart.map fun _ =>
             { labels := d.timestamps, data0 := d.quality }
           historyLossChart := st.historyLossChart.map fun _ =>
             { labels := d.timestamps, data0 := d.packet_loss }
           historySignalChart := st.historySignalChart.map fun _ =>
             { labels := d.timestamps, data0 := d.signal } }
       else st) := by
  cases st with
  | mk hp hq hl hs =>
    cases period <;> cases hp <;> cases hq <;> cases hl <;> cases hs <;>
      by_cases h : d.timestamps.length > 0 <;>
        simp [updateHistoryCharts, h]

/-- A failed long-term fetch only updates `currentPeriod`; the charts
are untouched. -/
lemma updateHistoryCharts_error_eq (period : Option String)
    (cur : String) (st : LongCharts) :
    updateHistoryCharts period cur st (Except.error ()) =
      (period.getD cur, st) := by
  cases period <;> rfl

/-- Claim C2: a short-term poll that ends in fetch failure, or whose
response has zero timestamps, leaves every chart's labels and dataset
arrays unchanged; a successful poll on a later tick replaces the chart
contents wholly with that response's arrays — the same state a direct
success would have produced, with no partial merge from the failed
tick. -/
theorem updateCharts_failure_noop_success_replaces :
    ∀ (st : ShortCharts) (d : HistoryData),
      updateCharts st (Except.error ()) = st ∧
      (d.timestamps = [] → updateCharts st (Except.ok d) = st) ∧
      (d.timestamps ≠ [] →
        updateCharts (updateCharts st (Except.error ())) (Except.ok d) =
          updateCharts st (Except.ok d) ∧
        (updateCharts st (Except.ok d)).latencyChart =
          st.latencyChart.map (fun _ =>
            { labels := d.timestamps, data0 := d.ping, data1 := d.jitter }) ∧
        (updateCharts st (Except.ok d)).lossChart =
          st.lossChart.map (fun _ =>
            { labels := d.timestamps, data0 := d.packet_loss })) := by
  intro st d
  refine ⟨rfl, ?_, ?_⟩
  · intro h
    rw [updateCharts_ok_eq]
    simp [h]
  · intro h
    have hl : d.timestamps.length > 0 := List.length_pos.mpr h
    refine ⟨rfl, ?_, ?_⟩ <;> rw [updateCharts_ok_eq] <;> simp [hl]

/-- Example short-term chart state with both charts present. -/
def stEx : ShortCharts :=
  { latencyChart := some { labels := ["t0"], data0 := [10], data1 := [2] }
    lossChart := some { labels := ["t0"], data0 := [0] } }

/-- Example well-formed `/api/history` response. -/
def dEx : HistoryData :=
  { timestamps := ["t1", "t2"]
    ping := [20, 30]
    jitter := [1, 2]
    packet_loss := [0, 1] }

/-- Witness for `updateCharts_failure_noop_success_replaces`: a failed
tick followed by a successful one yields exactly the state of a direct
success on the concrete seed state and response. -/
theorem updateCharts_failure_noop_success_replaces_witness :
    dEx.timestamps ≠ [] ∧
    updateCharts (updateCharts stEx (Except.error ())) (Except.ok dEx) =
      updateCharts stEx (Except.ok dEx) :=
  ⟨by decide,
   ((updateCharts_failure_noop_success_replaces stEx dEx).2.2 (by decide)).1⟩

/-- A `/api/history` response with mismatched array lengths: two
timestamps but only one ping value. -/
def dMismatch : HistoryData :=
  { timestamps := ["t1", "t2"]
    ping := [20]
    jitter := [1, 2]
    packet_loss := [0, 0] }

/-- Claim C3, counterexample: `updateCharts` renders a response whose
ping array is shorter than its timestamps array — the previous window is
not retained, because the code only guards on `timestamps.length > 0`
and never compares the per-metric array lengths. -/
theorem updateCharts_mismatch_counterexample :
    dMismatch.ping.length ≠ dMismatch.timestamps.length ∧
    updateCharts stEx (Except.ok dMismatch) ≠ stEx := by decide

/-- Claim C3, amended: `updateCharts` and `updateHistoryCharts` retain
the previous window only on fetch failure or an empty timestamps array;
a response with nonempty timestamps is rendered into every existing
chart as-is, regardless of whether the per-metric value arrays match the
timestamps array in length (no length validation is performed). -/
theorem updateCharts_no_length_validation :
    ∀ (st : ShortCharts) (d : HistoryData) (cur : String)
      (lst : LongCharts) (ld : LongHistoryData),
      d.timestamps ≠ [] →
      ld.timestamps ≠ [] →
      (updateCharts st (Except.ok d)).latencyChart =
        st.latencyChart.map (fun _ =>
          { labels := d.timestamps, data0 := d.ping, data1 := d.jitter }) ∧
      (updateCharts st (Except.ok d)).lossChart =
        st.lossChart.map (fun _ =>
          { labels := d.timestamps, data0 := d.packet_loss }) ∧
      (updateHistoryCharts none cur lst (Except.ok ld)).2 =
        { historyPingChart := lst.historyPingChart.map fun _ =>
            { labels := ld.timestamps, data0 := ld.ping, data1 := ld.jitter }
          historyQualityChart := lst.historyQualityChart.map fun _ =>
            { labels := ld.timestamps, data0 := ld.quality }
          historyLossChart := lst.historyLossChart.map fun _ =>
            { labels := ld.timestamps, data0 := ld.packet_loss }
          historySignalChart := lst.historySignalChart.map fun _ =>
            { labels := ld.timestamps, data0 := ld.signal } } := by
  intro st d cur lst ld h hld
  have hl : d.timestamps.length > 0 := List.length_pos.mpr h
  have hll : ld.timestamps.length > 0 := List.length_pos.mpr hld
  refine ⟨?_, ?_, ?_⟩
  · rw [updateCharts_ok_eq]
    simp [hl]
  · rw [updateCharts_ok_eq]
    simp [hl]
  · rw [updateHistoryCharts_ok_eq]
    simp [hll]

/-- Example long-term chart state with all four charts present. -/
def lstEx : LongCharts :=
  { historyPingChart := some { labels := ["t0"], data0 := [10], data1 := [2] }
    historyQualityChart := some { labels := ["t0"], data0 := [90] }
    historyLossChart := some { labels := ["t0"], data0 := [0] }
    historySignalChart := some { labels := ["t0"], data0 := [80] } }

/-- Example `/api/long-term-history` response with mismatched lengths:
two timestamps but a single quality value. -/
def ldMismatch : LongHistoryData :=
  { timestamps := ["t1", "t2"]
    ping := [20, 30]
    jitter := [1, 2]
    quality := [95]
    packet_loss := [0, 0]
    signal := [70, 75] }

/-- Witness for `updateCharts_no_length_validation` on concrete
mismatched responses: both rendered anyway. -/
theorem updateCharts_no_length_validation_witness :
    dMismatch.timestamps ≠ [] ∧ ldMismatch.timestamps ≠ [] ∧
    (updateCharts stEx (Except.ok dMismatch)).latencyChart =
      some { labels := ["t1", "t2"], data0 := [20], data1 := [1, 2] } ∧
    (updateHistoryCharts none "day" lstEx
        (Except.ok ldMismatch)).2.historyQualityChart =
      some { labels := ["t1", "t2"], data0 := [95] } := by
  have h := updateCharts_no_length_validation stEx dMismatch "day" lstEx
    ldMismatch (by decide) (by decide)
  refine ⟨by decide, by decide, ?_, ?_⟩
  · rw [h.1]
    decide
  · rw [h.2.2]
    decide

/-- Setting one element satisfying `p` into a list in which no element
satisfies `p` gives a list with exactly one such element. -/
lemma countP_set_one {α : Type} (p : α → Bool) (l : List α) (i : Nat)
    (x : α) (h0 : l.countP p = 0) (hi : i < l.length) (hx : p x = true) :
    (l.set i x).countP p = 1 := by
  induction l generalizing i with
  | nil => simp at hi
  | cons a t ih =>
    rw [List.countP_cons] at h0
    have ha : p a = false := by
      cases hpa : p a with
      | false => rfl
      | true => rw [hpa] at h0; simp at h0
    have ht : t.countP p = 0 := by
      rw [ha] at h0
      simpa using h0
    cases i with
    | zero =>
        simp [List.set, List.countP_cons, hx, ht]
    | succ j =>
        have hj : j < t.length := by simpa using hi
        simp [List.set, List.countP_cons, ha, ih j ht hj]

/-- Claim C7: the period-control click handler issues exactly one
request to the long-term-history endpoint and exactly one request to the
longterm-score endpoint, both with the clicked control's period, and
afterwards exactly one control carries the active marker — the clicked
one. -/
theorem periodClick_spec :
    ∀ (cur : String) (buttons : List PeriodBtn) (i : Nat) (btn : PeriodBtn),
      buttons.get? i = some btn →
      ((periodClick cur buttons i).2.1.countP (fun b => b.active) = 1 ∧
       ((periodClick cur buttons i).2.1.get? i).map (fun b => b.active) =
         some true ∧
       (periodClick cur buttons i).2.2.count
         (ApiRequest.longTermHistory btn.period) = 1 ∧
       (periodClick cur buttons i).2.2.count
         (ApiRequest.longtermScore btn.period) = 1 ∧
       (periodClick cur buttons i).2.2.length = 2) := by
  intro cur buttons i btn h
  have hi : i < buttons.length := by
    rcases List.get?_eq_some.mp h with ⟨hlt, _⟩
    exact hlt
  unfold periodClick
  rw [h]
  simp only [updateHistoryChartsReq, updateLongtermScoreReq]
  refine ⟨?_, ?_, ?_, ?_, rfl⟩
  · exact countP_set_one _ _ i _
      (by simp [List.countP_map]) (by simpa using hi) rfl
  · rw [List.get?_set_eq_of_lt _ (by simpa using hi)]
    rfl
  · simp [List.count_cons]
  · simp [List.count_cons]

/-- Witness for `periodClick_spec`: clicking the `week` control while
`day` is active. -/
theorem periodClick_spec_witness :
    (periodClick "day" [{ period := "day", active := true },
        { period := "week", active := false }] 1).2.1.countP
      (fun b => b.active) = 1 ∧
    (periodClick "day" [{ period := "day", active := true },
        { period := "week", active := false }] 1).2.2.count
      (ApiRequest.longTermHistory "week") = 1 :=
  ⟨(periodClick_spec "day" [{ period := "day", active := true },
      { period := "week", active := false }] 1
      { period := "week", active := false } (by decide)).1,
   (periodClick_spec "day" [{ period := "day", active := true },
      { period := "week", active := false }] 1
      { period := "week", active := false } (by decide)).2.2.1⟩

/-- Claim C8: for every detail sub-score s (an integer score in 0-100),
`updateDetailBar` renders a bar whose width percentage is exactly s —
which coincides with s clamped to 0-100 — and whose numeric label is s,
with class `score-high` iff s ≥ 80, `score-mid` iff 50 ≤ s < 80, and
`score-low` otherwise; and each of the four named sub-scores renders as
0 when missing (total function — no error). -/
theorem updateDetailBar_spec :
    ∀ s : Int, 0 ≤ s → s ≤ 100 →
      ((updateDetailBar s).widthPct = s ∧
       (updateDetailBar s).widthPct = max 0 (min 100 s) ∧
       (updateDetailBar s).label = s ∧
       ((updateDetailBar s).cssClass = "score-high" ↔ 80 ≤ s) ∧
       ((updateDetailBar s).cssClass = "score-mid" ↔ 50 ≤ s ∧ s < 80) ∧
       ((updateDetailBar s).cssClass = "score-low" ↔ s < 50)) ∧
      renderDetailBars
          { packet_loss := none, ping := none
            connection := none, jitter := none } =
        [("lt-loss", updateDetailBar 0), ("lt-ping", updateDetailBar 0),
         ("lt-conn", updateDetailBar 0), ("lt-jitter", updateDetailBar 0)] := by
  intro s h0 h100
  refine ⟨⟨rfl, ?_, rfl, ?_, ?_, ?_⟩, by decide⟩
  · simp only [updateDetailBar]
    omega
  · unfold updateDetailBar
    by_cases h80 : s ≥ 80
    · simp [h80]
    · by_cases h50 : s ≥ 50 <;> simp [h80, h50] <;> try omega
  · unfold updateDetailBar
    by_cases h80 : s ≥ 80
    · simp [h80] <;> omega
    · by_cases h50 : s ≥ 50 <;> simp [h80, h50] <;> try omega
  · unfold updateDetailBar
    by_cases h80 : s ≥ 80
    · simp [h80] <;> omega
    · by_cases h50 : s ≥ 50 <;> simp [h80, h50] <;> try omega

/-- Witness for `updateDetailBar_spec` at s = 65 (mid class). -/
theorem updateDetailBar_spec_witness :
    (updateDetailBar 65).cssClass = "score-mid" :=
  ((updateDetailBar_spec 65 (by decide) (by decide)).1.2.2.2.2.1).mpr
    (by decide)
